import Mathlib

/-!
Verification development for the ops-copilot repository: a CLI DevOps chat
assistant that forwards user queries to an LLM endpoint and lets the model
invoke remote MCP tools inside a bounded chat loop.

The Go CLI shell (src/cmd/cli.go) is embedded directly from its source.
The chat-loop core (ops_copilot/core/chat.py, ops_copilot/tools/mcp_tool.py,
ops_copilot/core/openai_client.py) is not present in the source tree, so the
loop, session trimming, tool registry and tool invoker are modelled from the
specification; each such definition is marked `Modelled from the spec:`.
-/

namespace OpsCopilot

/-- Role tag of one conversation turn: user, assistant or tool. -/
inductive Role
  | user
  | assistant
  | tool
  deriving DecidableEq, Repr

/-- One role-tagged entry of the conversation history, with optional tool
name and call identifier for tool-related turns. -/
structure ConversationTurn where
  role : Role
  content : String
  toolName : Option String
  callId : Option String
  deriving DecidableEq, Repr

/-- A descriptor of one remote MCP tool in the registry snapshot. -/
structure ToolDescriptor where
  name : String
  description : String
  endpoint : String
  deriving DecidableEq, Repr

/-- A model-requested tool invocation: tool name, arguments and a
correlation id linking the request to its eventual result. -/
structure ToolCallRequest where
  toolName : String
  arguments : List (String × String)
  callId : String
  deriving DecidableEq, Repr

/-- The result of one tool invocation: correlation id, success flag and
payload text (successful output or an error message). -/
structure ToolResult where
  callId : String
  success : Bool
  payload : String
  deriving DecidableEq, Repr

/-- A model response: either a final textual answer or a structured tool
invocation request. -/
inductive ModelResponse
  | FinalAnswer (text : String)
  | ToolInvocation (req : ToolCallRequest)
  deriving DecidableEq, Repr

/-- Default maximum chat history length: CHAT_MAX_HISTORY, default 8. -/
def CHAT_MAX_HISTORY : Nat := 8

/-- Default Go-variant chat history length from the --history flag. -/
def historyFlagDefault : Nat := 5

/-- Modelled from the spec: the Session FIFO trim. The session code
(ops_copilot/core/chat.py) is not under src/; the spec bounds history to a
configured maximum, evicting oldest turns first. -/
def trimHistory (maxHistory : Nat) (h : List ConversationTurn) :
    List ConversationTurn :=
  if h.length ≤ maxHistory then h else h.drop (h.length - maxHistory)

/-- Modelled from the spec: appending one turn to the session history and
then trimming to the configured maximum. -/
def appendTurn (maxHistory : Nat) (h : List ConversationTurn)
    (t : ConversationTurn) : List ConversationTurn :=
  trimHistory maxHistory (h ++ [t])

/-- Outcome of running cmd.Execute: the lines printed to stdout and stderr,
and the code passed to os.Exit, or `none` when Execute returns normally. -/
structure ExecOutcome where
  stdoutLines : List String
  stderrLines : List String
  exitCode : Option Nat
  deriving DecidableEq, Repr

/-- Shallow embedding of Execute (src/cmd/cli.go): runs the root command;
if it returns an error, prints the error with fmt.Println (standard output)
and calls os.Exit(1); otherwise it returns normally, printing nothing.
`rootResult` is the error returned by rootCmd.Execute, `none` on success. -/
def Execute (rootResult : Option String) : ExecOutcome :=
  match rootResult with
  | some err => { stdoutLines := [err], stderrLines := [], exitCode := some 1 }
  | none => { stdoutLines := [], stderrLines := [], exitCode := none }

/-- Outcome of dispatching one ToolCallRequest: either an actual invocation
result, or a terminal unknown-tool error for the turn. -/
inductive DispatchOutcome
  | Invoked (result : ToolResult)
  | UnknownToolError (msg : String)
  deriving DecidableEq, Repr

/-- Trace of one dispatch: its outcome, how many network calls it made, and
whether the outcome was reported to the user. -/
structure DispatchTrace where
  outcome : DispatchOutcome
  networkCalls : Nat
  reportedToUser : Bool
  deriving DecidableEq, Repr

/-- Modelled from the spec: resolving a tool name against the current
registry snapshot (the registry code is not under src/). -/
def resolveTool (registry : List ToolDescriptor) (name : String) :
    Option ToolDescriptor :=
  registry.find? (fun d => d.name == name)

/-- Modelled from the spec: the orchestrator dispatches a ToolCallRequest:
an unknown tool name is a terminal error for the turn, reported to the user
with no network call; a known tool is invoked (one network call). -/
def dispatchToolCall (registry : List ToolDescriptor)
    (invoke : ToolCallRequest → ToolResult) (req : ToolCallRequest) :
    DispatchTrace :=
  match resolveTool registry req.toolName with
  | none => ⟨.UnknownToolError ("unknown tool: " ++ req.toolName), 0, true⟩
  | some _ => ⟨.Invoked (invoke req), 1, true⟩

/-- Transport-level outcome of one remote tool call. -/
inductive TransportOutcome
  | ok (payload : String)
  | timeout
  | transportError (msg : String)
  deriving DecidableEq, Repr

/-- Default MCP request timeout in seconds (MCP_TIMEOUT, default 600s). -/
def MCP_TIMEOUT : Nat := 600

/-- Modelled from the spec: the Tool Invoker. On timeout or transport
failure it returns a ToolResult with success=false and a descriptive error
message instead of aborting. -/
def invokeTool (t : TransportOutcome) (req : ToolCallRequest) : ToolResult :=
  match t with
  | .ok p => ⟨req.callId, true, p⟩
  | .timeout => ⟨req.callId, false, "tool call timed out"⟩
  | .transportError m => ⟨req.callId, false, "tool call failed: " ++ m⟩

/-- The tool turn recorded in history for a completed tool invocation. -/
def toolResultTurn (req : ToolCallRequest) (res : ToolResult) :
    ConversationTurn :=
  ⟨Role.tool, res.payload, some req.toolName, some res.callId⟩

/-- The assistant turn recorded for a final answer. -/
def assistantTurn (text : String) : ConversationTurn :=
  ⟨Role.assistant, text, none, none⟩

/-- The assistant turn recorded for a pending tool call. -/
def toolCallTurn (req : ToolCallRequest) : ConversationTurn :=
  ⟨Role.assistant, "", some req.toolName, some req.callId⟩

/-- The user turn recorded for one piece of user input. -/
def userTurn (text : String) : ConversationTurn :=
  ⟨Role.user, text, none, none⟩

/-- History and liveness of the session after one orchestrator step. -/
structure SessionStep where
  history : List ConversationTurn
  terminated : Bool
  deriving DecidableEq, Repr

/-- Modelled from the spec: the orchestrator feeds every tool outcome
(success or failure) back into history as a tool turn and keeps the session
alive. -/
def handleToolOutcome (h : List ConversationTurn) (req : ToolCallRequest)
    (t : TransportOutcome) : SessionStep :=
  ⟨h ++ [toolResultTurn req (invokeTool t req)], false⟩

/-- C1: after appending a turn and trimming, the session history never
exceeds the configured maximum, and trimming only evicts a batch of oldest
turns: what remains is a contiguous final segment of the untrimmed history
(FIFO eviction, never any other turn). -/
theorem appendTurn_bounded_fifo (m : Nat) (h : List ConversationTurn)
    (t : ConversationTurn) :
    (appendTurn m h t).length ≤ m ∧
    ∃ evicted, evicted ++ appendTurn m h t = h ++ [t] := by
  unfold appendTurn trimHistory
  by_cases hle : (h ++ [t]).length ≤ m
  · rw [if_pos hle]
    exact ⟨hle, [], rfl⟩
  · rw [if_neg hle]
    refine ⟨?_, (h ++ [t]).take ((h ++ [t]).length - m), List.take_append_drop _ _⟩
    rw [List.length_drop]
    omega

/-- C9: whenever the root command's execution returns an error (an
unrecoverable startup failure), the process terminates with a non-zero
exit code. -/
theorem execute_error_exits_nonzero (err : String) :
    ∃ c, (Execute (some err)).exitCode = some c ∧ c ≠ 0 :=
  ⟨1, rfl, one_ne_zero⟩

/-- C10: Execute prints and exits exactly when the root command errs: on an
error the message goes to standard output (standard error stays empty) and
the exit status is exactly 1; on success Execute returns normally, printing
nothing and not exiting. Since `Execute` is total on `Option String`, these
two equations characterise it completely, giving the if-and-only-if. -/
theorem execute_exit_iff_error (e : String) :
    Execute (some e) = ⟨[e], [], some 1⟩ ∧
    Execute none = ⟨[], [], none⟩ :=
  ⟨rfl, rfl⟩

/-- C3: a ToolCallRequest whose tool name is absent from the registry
snapshot is a terminal error for the turn, reported to the user, with no
network call attempted — never silently dropped. -/
theorem unknown_tool_reported_no_network (registry : List ToolDescriptor)
    (invoke : ToolCallRequest → ToolResult) (req : ToolCallRequest)
    (habs : ∀ d ∈ registry, d.name ≠ req.toolName) :
    (dispatchToolCall registry invoke req).networkCalls = 0 ∧
    (dispatchToolCall registry invoke req).reportedToUser = true ∧
    (dispatchToolCall registry invoke req).outcome =
      DispatchOutcome.UnknownToolError ("unknown tool: " ++ req.toolName) := by
  have hres : resolveTool registry req.toolName = none := by
    rw [resolveTool, List.find?_eq_none]
    intro d hd
    simpa using habs d hd
  rw [dispatchToolCall, hres]
  exact ⟨rfl, rfl, rfl⟩

/-- Witness for C3: dispatching a request for the unknown tool get_logs
against a one-entry registry holding only get_metrics. -/
theorem unknown_tool_reported_no_network_witness :
    (dispatchToolCall [⟨"get_metrics", "metrics", "http://mcp/metrics"⟩]
        (fun req => ⟨req.callId, true, "ok"⟩)
        ⟨"get_logs", [("pod", "nginx")], "call-1"⟩).networkCalls = 0 ∧
    (dispatchToolCall [⟨"get_metrics", "metrics", "http://mcp/metrics"⟩]
        (fun req => ⟨req.callId, true, "ok"⟩)
        ⟨"get_logs", [("pod", "nginx")], "call-1"⟩).reportedToUser = true ∧
    (dispatchToolCall [⟨"get_metrics", "metrics", "http://mcp/metrics"⟩]
        (fun req => ⟨req.callId, true, "ok"⟩)
        ⟨"get_logs", [("pod", "nginx")], "call-1"⟩).outcome =
      DispatchOutcome.UnknownToolError ("unknown tool: " ++ "get_logs") :=
  unknown_tool_reported_no_network
    [⟨"get_metrics", "metrics", "http://mcp/metrics"⟩]
    (fun req => ⟨req.callId, true, "ok"⟩)
    ⟨"get_logs", [("pod", "nginx")], "call-1"⟩
    (by decide)

/-- C4: a tool invocation that times out or fails in transport yields a
ToolResult with success=false and a descriptive (non-empty) error message;
that result is appended to history as a tool turn and the session
continues rather than terminating. -/
theorem tool_failure_recoverable (req : ToolCallRequest)
    (h : List ConversationTurn) (m : String) :
    (invokeTool TransportOutcome.timeout req).success = false ∧
    (invokeTool TransportOutcome.timeout req).payload = "tool call timed out" ∧
    "tool call timed out" ≠ "" ∧
    (invokeTool (TransportOutcome.transportError m) req).success = false ∧
    (invokeTool (TransportOutcome.transportError m) req).payload =
      "tool call failed: " ++ m ∧
    "tool call failed: " ++ m ≠ "" ∧
    (handleToolOutcome h req TransportOutcome.timeout).history =
      h ++ [toolResultTurn req (invokeTool TransportOutcome.timeout req)] ∧
    (handleToolOutcome h req TransportOutcome.timeout).terminated = false ∧
    (handleToolOutcome h req (TransportOutcome.transportError m)).history =
      h ++ [toolResultTurn req
        (invokeTool (TransportOutcome.transportError m) req)] ∧
    (handleToolOutcome h req (TransportOutcome.transportError m)).terminated
      = false := by
  refine ⟨rfl, rfl, by decide, rfl, rfl, ?_, rfl, rfl, rfl, rfl⟩
  intro hc
  have hlen := congrArg String.length hc
  rw [String.length_append] at hlen
  simp at hlen
  exact absurd hlen.1 (by decide)

/-- State of the tool registry cache: the last known-good snapshot
(`none` before the first successful load) and when it was loaded. -/
structure RegistryState where
  snapshot : Option (List ToolDescriptor)
  lastLoad : Nat
  deriving DecidableEq, Repr

/-- The registry state before any load has succeeded. -/
def freshRegistryState : RegistryState := ⟨none, 0⟩

/-- Outcome of one network fetch of the remote tool list. -/
inductive FetchOutcome
  | ok (tools : List ToolDescriptor)
  | err (msg : String)
  deriving DecidableEq, Repr

/-- Result of a registry load: a usable snapshot possibly carrying a
non-fatal warning, or a fatal failure. -/
inductive LoadResult
  | loaded (tools : List ToolDescriptor) (warning : Option String)
  | fatal (msg : String)
  deriving DecidableEq, Repr

/-- Tool-list cache TTL in seconds (the tools list is cached for 300s). -/
def registryTTL : Nat := 300

/-- Modelled from the spec: registry load with TTL caching. Within the TTL
the cached snapshot is returned without a network fetch; on expiry a
refresh is attempted: a failed refresh after at least one successful load
degrades to the stale snapshot with a non-fatal warning, while a failure
of the first-ever load is fatal. -/
def registryLoad (st : RegistryState) (now : Nat) (fetch : FetchOutcome) :
    RegistryState × LoadResult :=
  match st.snapshot with
  | none =>
    match fetch with
    | .ok tools => (⟨some tools, now⟩, .loaded tools none)
    | .err m => (st, .fatal m)
  | some cached =>
    if now - st.lastLoad < registryTTL then (st, .loaded cached none)
    else
      match fetch with
      | .ok tools => (⟨some tools, now⟩, .loaded tools none)
      | .err m =>
        (st, .loaded cached (some ("registry refresh failed: " ++ m)))

/-- C5: when a refresh fails after at least one successful load (TTL
expired, fetch errs), load still returns the last known-good snapshot with
a non-fatal warning — so every previously known tool name resolves exactly
as before — while a failure of the first-ever load is fatal. -/
theorem stale_snapshot_on_refresh_failure (st : RegistryState)
    (cached : List ToolDescriptor) (now : Nat) (m : String)
    (hs : st.snapshot = some cached)
    (hexp : registryTTL ≤ now - st.lastLoad) :
    (registryLoad st now (FetchOutcome.err m)).2 =
      LoadResult.loaded cached (some ("registry refresh failed: " ++ m)) ∧
    (registryLoad st now (FetchOutcome.err m)).1 = st ∧
    (∀ name, resolveTool cached name = resolveTool cached name) ∧
    (registryLoad freshRegistryState now (FetchOutcome.err m)).2 =
      LoadResult.fatal m := by
  have hlt : ¬ now - st.lastLoad < registryTTL := by omega
  simp only [registryLoad, hs, if_neg hlt]
  simp [freshRegistryState]

/-- Witness for C5: a registry loaded at time 0 holding get_logs, with a
failing refresh at time 300. -/
theorem stale_snapshot_on_refresh_failure_witness :
    (registryLoad ⟨some [⟨"get_logs", "logs", "http://mcp/logs"⟩], 0⟩ 300
        (FetchOutcome.err "boom")).2 =
      LoadResult.loaded [⟨"get_logs", "logs", "http://mcp/logs"⟩]
        (some ("registry refresh failed: " ++ "boom")) ∧
    (registryLoad ⟨some [⟨"get_logs", "logs", "http://mcp/logs"⟩], 0⟩ 300
        (FetchOutcome.err "boom")).1 =
      ⟨some [⟨"get_logs", "logs", "http://mcp/logs"⟩], 0⟩ ∧
    (∀ name, resolveTool [⟨"get_logs", "logs", "http://mcp/logs"⟩] name =
      resolveTool [⟨"get_logs", "logs", "http://mcp/logs"⟩] name) ∧
    (registryLoad freshRegistryState 300 (FetchOutcome.err "boom")).2 =
      LoadResult.fatal "boom" :=
  stale_snapshot_on_refresh_failure
    ⟨some [⟨"get_logs", "logs", "http://mcp/logs"⟩], 0⟩
    [⟨"get_logs", "logs", "http://mcp/logs"⟩] 300 "boom" rfl (by decide)

/-- The chat-loop states of the orchestrator state machine. -/
inductive LoopState
  | AwaitingUserInput
  | ModelThinking
  | ToolExecuting
  | AnswerReady
  deriving DecidableEq, Repr

/-- How a pending network call ends: cancelled by a user interrupt, or
completed with a model response. -/
inductive PendingCall
  | interrupted
  | completed (resp : ModelResponse)
  deriving DecidableEq, Repr

/-- State after resolving a pending network call: the history, the next
loop state, and how many in-flight calls remain in the background. -/
structure InterruptStepResult where
  history : List ConversationTurn
  state : LoopState
  danglingCalls : Nat
  deriving DecidableEq, Repr

/-- Modelled from the spec: resolution of a pending model call under a
possible user interrupt. An interrupt cancels the in-flight call (nothing
left running) and returns to AwaitingUserInput with history untouched; a
completed call appends its turn atomically. -/
def onPendingModelCall (h : List ConversationTurn) (p : PendingCall) :
    InterruptStepResult :=
  match p with
  | .interrupted => ⟨h, .AwaitingUserInput, 0⟩
  | .completed (.FinalAnswer t) => ⟨h ++ [assistantTurn t], .AnswerReady, 0⟩
  | .completed (.ToolInvocation req) =>
    ⟨h ++ [toolCallTurn req], .ToolExecuting, 0⟩

/-- C6: a user interrupt during a pending network call cancels the call
(no dangling background work) and returns to AwaitingUserInput with the
history exactly in its pre-call state; in every case the history is either
the pre-call history or the pre-call history with one turn fully appended,
never partially appended. -/
theorem interrupt_leaves_history_consistent (h : List ConversationTurn)
    (p : PendingCall) :
    (onPendingModelCall h PendingCall.interrupted).history = h ∧
    (onPendingModelCall h PendingCall.interrupted).state =
      LoopState.AwaitingUserInput ∧
    (onPendingModelCall h p).danglingCalls = 0 ∧
    ((onPendingModelCall h p).history = h ∨
      ∃ t, (onPendingModelCall h p).history = h ++ [t]) := by
  refine ⟨rfl, rfl, ?_, ?_⟩
  · cases p with
    | interrupted => rfl
    | completed resp => cases resp <;> rfl
  · cases p with
    | interrupted => exact Or.inl rfl
    | completed resp =>
      cases resp with
      | FinalAnswer t => exact Or.inr ⟨assistantTurn t, rfl⟩
      | ToolInvocation req => exact Or.inr ⟨toolCallTurn req, rfl⟩

/-- Hard cap on tool-call rounds within one user turn. -/
def maxToolRounds : Nat := 10

/-- The truncation notice rendered when the iteration cap is hit. -/
def truncationNotice : String :=
  "Maximum tool-call rounds reached; stopping with a truncated answer."

/-- Result of processing one user turn: the final history, the answer
rendered to the user, how many tool-call rounds ran, and the loop state
reached. -/
structure TurnResult where
  history : List ConversationTurn
  answer : String
  toolRounds : Nat
  finalState : LoopState
  deriving DecidableEq, Repr

/-- Bookkeeping for one completed tool-call round: the inner result with
its round counter incremented. -/
def afterToolRound (r : TurnResult) : TurnResult :=
  ⟨r.history, r.answer, r.toolRounds + 1, r.finalState⟩

/-- Modelled from the spec: the tool-call loop inside one user turn. With
no budget left it forces AnswerReady with a truncation notice; otherwise
the model either gives a final answer (appended as an assistant turn) or
requests a tool call, whose pending turn and result turn are appended
before looping with one round consumed. -/
def runLoopAux (model : List ConversationTurn → ModelResponse)
    (invoke : ToolCallRequest → ToolResult) :
    Nat → List ConversationTurn → TurnResult
  | 0, h => ⟨h, truncationNotice, 0, LoopState.AnswerReady⟩
  | fuel + 1, h =>
    match model h with
    | ModelResponse.FinalAnswer t =>
      ⟨h ++ [assistantTurn t], t, 0, LoopState.AnswerReady⟩
    | ModelResponse.ToolInvocation req =>
      afterToolRound (runLoopAux model invoke fuel
        (h ++ [toolCallTurn req, toolResultTurn req (invoke req)]))

/-- Modelled from the spec: one full user turn — the user text is appended
as a user turn, then the tool-call loop runs with the hard iteration cap
as its budget. -/
def runTurn (model : List ConversationTurn → ModelResponse)
    (invoke : ToolCallRequest → ToolResult)
    (h : List ConversationTurn) (u : String) : TurnResult :=
  runLoopAux model invoke maxToolRounds (h ++ [userTurn u])

/-- The number of tool-call rounds never exceeds the remaining budget. -/
theorem runLoopAux_toolRounds_le
    (model : List ConversationTurn → ModelResponse)
    (invoke : ToolCallRequest → ToolResult) :
    ∀ fuel h, (runLoopAux model invoke fuel h).toolRounds ≤ fuel := by
  intro fuel
  induction fuel with
  | zero => intro h; exact Nat.le_refl 0
  | succ n ih =>
    intro h
    rw [runLoopAux]
    cases model h with
    | FinalAnswer t => exact Nat.zero_le _
    | ToolInvocation req => exact Nat.succ_le_succ (ih _)

/-- Under a model that always requests a tool call, the loop consumes its
whole budget and ends in AnswerReady with the truncation notice. -/
theorem runLoopAux_always_tool
    (model : List ConversationTurn → ModelResponse)
    (invoke : ToolCallRequest → ToolResult)
    (hm : ∀ hist, ∃ req, model hist = ModelResponse.ToolInvocation req) :
    ∀ fuel h, (runLoopAux model invoke fuel h).toolRounds = fuel ∧
      (runLoopAux model invoke fuel h).answer = truncationNotice ∧
      (runLoopAux model invoke fuel h).finalState = LoopState.AnswerReady := by
  intro fuel
  induction fuel with
  | zero => intro h; exact ⟨rfl, rfl, rfl⟩
  | succ n ih =>
    intro h
    obtain ⟨req, hreq⟩ := hm h
    rw [runLoopAux, hreq]
    dsimp only [afterToolRound]
    obtain ⟨h1, h2, h3⟩ := ih (h ++ [toolCallTurn req,
      toolResultTurn req (invoke req)])
    exact ⟨by rw [h1], h2, h3⟩

/-- Two pointwise-equal model oracles drive the loop to the same result. -/
theorem runLoopAux_congr
    (model₁ model₂ : List ConversationTurn → ModelResponse)
    (invoke : ToolCallRequest → ToolResult)
    (hm : ∀ hist, model₁ hist = model₂ hist) :
    ∀ fuel h, runLoopAux model₁ invoke fuel h =
      runLoopAux model₂ invoke fuel h := by
  intro fuel
  induction fuel with
  | zero => intro h; rfl
  | succ n ih =>
    intro h
    cases hr : model₂ h with
    | FinalAnswer t => rw [runLoopAux, runLoopAux, hm h, hr]
    | ToolInvocation req =>
      rw [runLoopAux, runLoopAux, hm h, hr]
      dsimp only
      rw [ih]

/-- The loop only ever appends: its final history extends the history it
started from. -/
theorem runLoopAux_extends
    (model : List ConversationTurn → ModelResponse)
    (invoke : ToolCallRequest → ToolResult) :
    ∀ fuel h, ∃ ts, (runLoopAux model invoke fuel h).history = h ++ ts := by
  intro fuel
  induction fuel with
  | zero => intro h; exact ⟨[], (List.append_nil h).symm⟩
  | succ n ih =>
    intro h
    rw [runLoopAux]
    cases model h with
    | FinalAnswer t => exact ⟨[assistantTurn t], rfl⟩
    | ToolInvocation req =>
      obtain ⟨ts, hts⟩ := ih (h ++ [toolCallTurn req,
        toolResultTurn req (invoke req)])
      refine ⟨[toolCallTurn req, toolResultTurn req (invoke req)] ++ ts, ?_⟩
      dsimp only [afterToolRound]
      rw [hts, List.append_assoc]

/-- C2: the number of tool-call rounds in any user turn is bounded by the
hard iteration cap of 10; when the model requests a tool call on every
round (10 consecutive tool-call rounds without a final answer), round 11
is forced to AnswerReady with the truncation notice instead of another
tool call. -/
theorem chat_loop_iteration_cap
    (model₀ model : List ConversationTurn → ModelResponse)
    (invoke₀ invoke : ToolCallRequest → ToolResult)
    (h₀ h : List ConversationTurn) (u₀ u : String)
    (hm : ∀ hist, ∃ req, model hist = ModelResponse.ToolInvocation req) :
    (runTurn model₀ invoke₀ h₀ u₀).toolRounds ≤ maxToolRounds ∧
    (runTurn model invoke h u).toolRounds = maxToolRounds ∧
    (runTurn model invoke h u).answer = truncationNotice ∧
    (runTurn model invoke h u).finalState = LoopState.AnswerReady := by
  obtain ⟨h1, h2, h3⟩ :=
    runLoopAux_always_tool model invoke hm maxToolRounds (h ++ [userTurn u])
  exact ⟨runLoopAux_toolRounds_le model₀ invoke₀ maxToolRounds _, h1, h2, h3⟩

/-- Witness for C2: a model that always answers at once stays within the
cap, and a model that always requests the get_logs tool is truncated after
exactly 10 rounds. -/
theorem chat_loop_iteration_cap_witness :
    (runTurn (fun _ => ModelResponse.FinalAnswer "done")
        (fun req => ⟨req.callId, true, "ok"⟩) [] "hi").toolRounds ≤
      maxToolRounds ∧
    (runTurn (fun _ => ModelResponse.ToolInvocation
          ⟨"get_logs", [("pod", "nginx")], "call-1"⟩)
        (fun req => ⟨req.callId, true, "ok"⟩) [] "hi").toolRounds =
      maxToolRounds ∧
    (runTurn (fun _ => ModelResponse.ToolInvocation
          ⟨"get_logs", [("pod", "nginx")], "call-1"⟩)
        (fun req => ⟨req.callId, true, "ok"⟩) [] "hi").answer =
      truncationNotice ∧
    (runTurn (fun _ => ModelResponse.ToolInvocation
          ⟨"get_logs", [("pod", "nginx")], "call-1"⟩)
        (fun req => ⟨req.callId, true, "ok"⟩) [] "hi").finalState =
      LoopState.AnswerReady :=
  chat_loop_iteration_cap
    (fun _ => ModelResponse.FinalAnswer "done")
    (fun _ => ModelResponse.ToolInvocation
      ⟨"get_logs", [("pod", "nginx")], "call-1"⟩)
    (fun req => ⟨req.callId, true, "ok"⟩)
    (fun req => ⟨req.callId, true, "ok"⟩)
    [] [] "hi" "hi"
    (fun _ => ⟨⟨"get_logs", [("pod", "nginx")], "call-1"⟩, rfl⟩)

/-- C8: history bookkeeping is deterministic — two runs from an identical
(history, registry snapshot) pair whose model oracles agree produce the
same TurnResult — and turns are only ever appended in dispatch order: the
final history extends the initial history plus the user turn, with no
reordering of existing turns. -/
theorem history_bookkeeping_deterministic
    (model₁ model₂ : List ConversationTurn → ModelResponse)
    (invoke : ToolCallRequest → ToolResult)
    (h : List ConversationTurn) (u : String)
    (hm : ∀ hist, model₁ hist = model₂ hist) :
    runTurn model₁ invoke h u = runTurn model₂ invoke h u ∧
    ∃ ts, (runTurn model₁ invoke h u).history = (h ++ [userTurn u]) ++ ts := by
  constructor
  · rw [runTurn, runTurn, runLoopAux_congr model₁ model₂ invoke hm]
  · exact runLoopAux_extends model₁ invoke maxToolRounds (h ++ [userTurn u])

/-- Witness for C8: two syntactically distinct but pointwise-equal model
oracles produce identical turn results from an empty history. -/
theorem history_bookkeeping_deterministic_witness :
    runTurn (fun _ => ModelResponse.FinalAnswer ("do" ++ "ne"))
        (fun req => ⟨req.callId, true, "ok"⟩) [] "hi" =
      runTurn (fun _ => ModelResponse.FinalAnswer "done")
        (fun req => ⟨req.callId, true, "ok"⟩) [] "hi" ∧
    ∃ ts, (runTurn (fun _ => ModelResponse.FinalAnswer ("do" ++ "ne"))
        (fun req => ⟨req.callId, true, "ok"⟩) [] "hi").history =
      ([] ++ [userTurn "hi"]) ++ ts :=
  history_bookkeeping_deterministic
    (fun _ => ModelResponse.FinalAnswer ("do" ++ "ne"))
    (fun _ => ModelResponse.FinalAnswer "done")
    (fun req => ⟨req.callId, true, "ok"⟩) [] "hi"
    (fun _ => by rfl)

/-- Outcome of one raw model-endpoint attempt: a response, or a network or
malformed-response failure. -/
inductive ModelCallOutcome
  | ok (r : ModelResponse)
  | netErr (msg : String)
  deriving DecidableEq, Repr

/-- Retry budget for consecutive model-call failures. -/
def modelRetryBudget : Nat := 2

/-- Modelled from the spec: the model call with bounded retries — attempt
`i` consults the transport oracle; a failure retries with the remaining
budget, and an exhausted budget escalates to an error for the turn. -/
def tryModelCall (oracle : Nat → ModelCallOutcome) :
    Nat → Nat → Except String ModelResponse
  | 0, _ => Except.error "model call failed after retries"
  | b + 1, i =>
    match oracle i with
    | ModelCallOutcome.ok r => Except.ok r
    | ModelCallOutcome.netErr _ => tryModelCall oracle b (i + 1)

/-- What the orchestrator does with one model turn: the error it displays
(if any), whether the session was terminated, and the response obtained. -/
structure ModelTurnOutcome where
  displayedError : Option String
  sessionTerminated : Bool
  response : Option ModelResponse
  deriving DecidableEq, Repr

/-- Modelled from the spec: the orchestrator handling of one model call —
after bounded retries a surviving error is displayed to the user and the
loop continues awaiting new input; the session is never terminated by it. -/
def handleModelTurn (oracle : Nat → ModelCallOutcome) : ModelTurnOutcome :=
  match tryModelCall oracle modelRetryBudget 0 with
  | Except.ok r => ⟨none, false, some r⟩
  | Except.error m => ⟨some m, false, none⟩

/-- Startup outcome: success, or a configuration/auth failure. -/
inductive StartupOutcome
  | ok
  | configError (msg : String)
  | authError (msg : String)
  deriving DecidableEq, Repr

/-- Modelled from the spec: only configuration/auth failures at startup
are fatal. -/
def startupFatal : StartupOutcome → Bool
  | StartupOutcome.ok => false
  | StartupOutcome.configError _ => true
  | StartupOutcome.authError _ => true

/-- C7: no single model-call or tool-call error terminates the session —
every model turn ends with the session alive (after the retry budget an
error is surfaced to the user, and one failed attempt followed by a
success still recovers the response), every tool outcome keeps the session
alive, and exactly the configuration/auth startup failures are fatal. -/
theorem single_call_errors_never_terminate_session
    (oracle : Nat → ModelCallOutcome) (h : List ConversationTurn)
    (req : ToolCallRequest) (t : TransportOutcome) (m : String)
    (r : ModelResponse) :
    (handleModelTurn oracle).sessionTerminated = false ∧
    (handleToolOutcome h req t).terminated = false ∧
    (handleModelTurn (fun _ => ModelCallOutcome.netErr m)).displayedError =
      some "model call failed after retries" ∧
    (handleModelTurn (fun _ =>
      ModelCallOutcome.netErr m)).sessionTerminated = false ∧
    (handleModelTurn (fun i => if i = 0 then ModelCallOutcome.netErr m
      else ModelCallOutcome.ok r)).response = some r ∧
    startupFatal StartupOutcome.ok = false ∧
    (∀ s : StartupOutcome, startupFatal s = true ↔ s ≠ StartupOutcome.ok) := by
  refine ⟨?_, rfl, rfl, rfl, rfl, rfl, ?_⟩
  · rw [handleModelTurn]
    cases tryModelCall oracle modelRetryBudget 0 with
    | ok r => rfl
    | error m => rfl
  · intro s
    cases s with
    | ok => simp [startupFatal]
    | configError m => simp [startupFatal]
    | authError m => simp [startupFatal]

end OpsCopilot
